import Mathlib

/-!
Shallow embedding of the simulation core of the Jump-Duck game
(src/Game.cpp, src/Game.hpp): control handling, charge/aim, projectile
physics, target pool, score, and enemy homing.

Modelling conventions.  Floating point values are modelled as exact
rationals; `int32_t cursor` is modelled as `ℤ` and `uint32_t score` as
`ℕ` (all reachable values are tiny, so machine-width wraparound never
fires).  The OpenGL resources, the mesh data and the purely cosmetic
`cursor_rotation` quaternion are omitted: no simulation decision reads
them.  `glm::mat4` translation matrices carry their position in column
3, and only the (x, y) entries of that column are ever read, so a
matrix is modelled as the pair `ℚ × ℚ` of those entries.  The
nondeterministic `std::random_device`-seeded draws in
`Game::add_target` are modelled by an oracle stream `spawnSeq`
consumed at index `spawnIdx`.
-/

namespace JumpDuck

/-- The `controls` member of `Game` (Game.hpp): one flag per logical input. -/
structure Controls where
  left : Bool
  right : Bool
  up : Bool
  down : Bool
  jump : Bool
  deriving Repr, DecidableEq

/-- SDL event type, restricted to what `Game::handle_event` inspects. -/
inductive EvType
  | keydown
  | keyup
  | otherT
  deriving Repr, DecidableEq

/-- SDL scancode, restricted to what `Game::handle_event` inspects. -/
inductive Scancode
  | left
  | right
  | space
  | otherK
  deriving Repr, DecidableEq

/-- An SDL event as seen by `Game::handle_event`. -/
structure Event where
  etype : EvType
  code : Scancode
  keyRepeat : Bool
  deriving Repr, DecidableEq

/-- The simulation state of `Game` (Game.hpp), minus rendering resources. -/
structure GameState where
  controls : Controls
  cursor : ℤ
  power : ℚ
  increase : Bool
  speed : ℚ
  score : ℕ
  height : ℚ
  xpos : ℚ
  velocity : ℚ × ℚ
  targets : List (ℚ × ℚ)
  board_translations : List (ℚ × ℚ)
  duck_pos : ℚ × ℚ
  spawnSeq : ℕ → ℚ × ℚ
  spawnIdx : ℕ

/-- `float const max_power = 4.0f` (Game.hpp). -/
def max_power : ℚ := 4

/-- `float const min_r = 0.3f` (Game.hpp). -/
def min_r : ℚ := 3/10

/-- Squared Euclidean distance between two points. -/
def dist2 (p q : ℚ × ℚ) : ℚ := (p.1 - q.1)^2 + (p.2 - q.2)^2

/-- The collision test of `Game::check_targets` / `Game::check_enemies`:
the C++ compares `sqrt(dx*dx+dy*dy) <= min_r`; over exact (nonnegative)
reals this is equivalent to `dx*dx+dy*dy <= min_r*min_r`, which keeps
the definition inside `ℚ`. -/
def hitTest (c t : ℚ × ℚ) : Bool := decide (dist2 c t ≤ min_r^2)

/-- `Game::handle_event` (Game.cpp lines 270-295).  Returns the updated
state together with the `bool` the C++ function returns.  The unused
`window_size` parameter is dropped. -/
def handle_event (g : GameState) (e : Event) : GameState × Bool :=
  if e.etype = EvType.keydown ∧ e.keyRepeat = true then (g, false)
  else if e.etype = EvType.keydown ∨ e.etype = EvType.keyup then
    if e.code = Scancode.left then
      ({ g with controls := { g.controls with left := decide (e.etype = EvType.keydown) } }, true)
    else if e.code = Scancode.right then
      ({ g with controls := { g.controls with right := decide (e.etype = EvType.keydown) } }, true)
    else if e.code = Scancode.space then
      if e.etype = EvType.keydown then
        ({ g with controls := { g.controls with up := true } }, true)
      else
        ({ g with
             controls := { g.controls with up := false, jump := true },
             velocity := ((g.cursor : ℚ) / 30, 5/2 * g.power) }, true)
    else (g, false)
  else (g, false)

/-- `Game::add_target` (Game.cpp lines 297-313): appends one target whose
position the C++ draws from a freshly reseeded Mersenne twister; the
draw is modelled by the oracle stream. -/
def add_target (g : GameState) : GameState :=
  { g with
      targets := g.targets ++ [g.spawnSeq g.spawnIdx],
      spawnIdx := g.spawnIdx + 1 }

/-- The enemy appended on a score milestone and at start-up: a matrix whose
column 3 is `(0, 3, 0, 0)` (Game.cpp lines 244-248 and 331-335). -/
def enemySpawn : ℚ × ℚ := (0, 3)

/-- One iteration of the loop body of `Game::check_targets`
(Game.cpp lines 316-339) at loop index `i`. -/
def targetStep (g : GameState) (i : ℕ) : GameState :=
  if hitTest (g.duck_pos.1, g.height) (g.targets.getD i (0, 0)) then
    let g1 := add_target { g with targets := g.targets.eraseIdx i }
    let g2 := { g1 with score := g1.score + 1 }
    if g2.score % 10 = 0 then
      { g2 with board_translations := g2.board_translations ++ [enemySpawn] }
    else g2
  else g

/-- `Game::check_targets` (Game.cpp lines 315-340): the loop runs its body
for `i = 0, …, 6` over the mutating state. -/
def check_targets (g : GameState) : GameState := (List.range 7).foldl targetStep g

/-- The power move of the charging branch of `Game::update` (Game.cpp
lines 368-371): one triangle-wave step of `0.1`, gated by the current
direction flag and the bounds. -/
def power_step (pw : ℚ) (inc : Bool) : ℚ :=
  if inc = true ∧ pw < max_power then pw + 1/10
  else if inc = false ∧ pw > 0 then pw - 1/10
  else pw

/-- First direction flip of the charging branch (Game.cpp line 373),
applied to the already-stepped power. -/
def flip_top (pw' : ℚ) (inc : Bool) : Bool :=
  if inc = true ∧ pw' ≥ max_power then false else inc

/-- Second direction flip of the charging branch (Game.cpp line 374),
reading the flag left by `flip_top`. -/
def flip_bottom (pw' : ℚ) (inc : Bool) : Bool :=
  if inc = false ∧ pw' ≤ 0 then true else inc

/-- The cursor/power section of `Game::update` (Game.cpp lines 358-375);
`angle` is the local constant `1`. -/
def charge_step (g : GameState) : GameState :=
  if g.controls.left = true ∧ g.cursor > -90 then { g with cursor := g.cursor - 1 }
  else if g.controls.right = true ∧ g.cursor < 90 then { g with cursor := g.cursor + 1 }
  else if g.controls.up = true then
    { g with
        power := power_step g.power g.increase,
        increase :=
          flip_bottom (power_step g.power g.increase)
            (flip_top (power_step g.power g.increase) g.increase) }
  else g

/-- The post-integration height of one jump frame (Game.cpp line 386):
`height + elapsed*(velocity.y + elapsed*(-4.9))`, using the
pre-decrement vertical velocity. -/
def integ_height (g : GameState) (elapsed : ℚ) : ℚ :=
  g.height + elapsed * (g.velocity.2 + elapsed * (-49/10))

/-- The post-integration horizontal position (Game.cpp line 387). -/
def integ_xpos (g : GameState) (elapsed : ℚ) : ℚ :=
  g.xpos + elapsed * g.velocity.1

/-- The post-gravity vertical velocity (Game.cpp line 388). -/
def integ_vy (g : GameState) (elapsed : ℚ) : ℚ :=
  g.velocity.2 + elapsed * (-49/10)

/-- The horizontal velocity after the wall-bounce check (Game.cpp lines
390-392): damped reversal when the integrated x leaves `[-0.5, 5.5]`. -/
def bounce_vx (g : GameState) (elapsed : ℚ) : ℚ :=
  if integ_xpos g elapsed < -1/2 ∨ integ_xpos g elapsed > 11/2 then g.velocity.1 * (-4/5)
  else g.velocity.1

/-- The vertical velocity after the apex clamp (Game.cpp lines 394-396):
forced to `-2` when the integrated height exceeds `3.6`. -/
def clamp_vy (g : GameState) (elapsed : ℚ) : ℚ :=
  if integ_height g elapsed > 18/5 then -2 else integ_vy g elapsed

/-- The `controls.jump` block of `Game::update` (Game.cpp lines 382-410):
gravity integration, wall bounce, apex clamp, landing snap, refresh of
`duck_pos`, then `check_targets`. -/
def physics_step (g : GameState) (elapsed : ℚ) : GameState :=
  if g.controls.jump = true then
    check_targets
      (if integ_height g elapsed < 1/100 then
        { g with
            height := 0, power := 0, xpos := integ_xpos g elapsed,
            velocity := (0, clamp_vy g elapsed),
            controls := { g.controls with jump := false },
            duck_pos := (integ_xpos g elapsed, (0 : ℚ)) }
      else
        { g with
            height := integ_height g elapsed, xpos := integ_xpos g elapsed,
            velocity := (bounce_vx g elapsed, clamp_vy g elapsed),
            duck_pos := (integ_xpos g elapsed, integ_height g elapsed) })
  else g

/-- The per-enemy drift of `Game::update` (Game.cpp lines 412-420): the x
step homes on `duck_pos` column 3's x entry, the y step on the live
`height` — the asymmetry is in the source. -/
def advance_enemy (dx h speed : ℚ) (e : ℚ × ℚ) : ℚ × ℚ :=
  (e.1 + (dx - e.1) / (400 * speed), e.2 + (h - e.2) / (400 * speed))

/-- `Game::check_enemies` (Game.cpp lines 342-354): computes duck–enemy
distances but performs no state change (the collision branch is an
empty TODO in the source). -/
def check_enemies (g : GameState) : GameState := g

/-- The enemy section of `Game::update` (Game.cpp lines 412-421). -/
def enemies_step (g : GameState) : GameState :=
  check_enemies
    { g with
        board_translations :=
          g.board_translations.map (advance_enemy g.duck_pos.1 g.height g.speed) }

/-- `Game::update` (Game.cpp lines 356-423): cursor/power section, then
the jump block, then enemy drift and `check_enemies`. -/
def update (g : GameState) (elapsed : ℚ) : GameState :=
  enemies_step (physics_step (charge_step g) elapsed)

/-- The game state right after the member initialisers of `Game` run
(Game.hpp lines 80-107, Game.cpp lines 232-248): everything at rest,
one enemy whose translation column is `(0, 3)`, no targets yet. -/
def base_state (seq : ℕ → ℚ × ℚ) : GameState :=
  { controls := ⟨false, false, false, false, false⟩
    cursor := 0
    power := 0
    increase := true
    speed := 1/2
    score := 0
    height := 0
    xpos := 0
    velocity := (0, 0)
    targets := []
    board_translations := [(0, 3)]
    duck_pos := (0, 0)
    spawnSeq := seq
    spawnIdx := 0 }

/-- End of `Game::Game` (Game.cpp lines 252-254): seven `add_target` calls. -/
def initGame (seq : ℕ → ℚ × ℚ) : GameState :=
  add_target (add_target (add_target (add_target (add_target (add_target
    (add_target (base_state seq)))))))

/-- States reachable from the initial game state by any interleaving of
`update` calls (arbitrary frame time) and `handle_event` calls. -/
inductive Reachable (seq : ℕ → ℚ × ℚ) : GameState → Prop
  | init : Reachable seq (initGame seq)
  | step (g : GameState) (dt : ℚ) : Reachable seq g → Reachable seq (update g dt)
  | ev (g : GameState) (e : Event) : Reachable seq g → Reachable seq (handle_event g e).1

/-! ### Frame lemmas: which fields each phase leaves untouched -/

lemma targetStep_power (g : GameState) (i : ℕ) : (targetStep g i).power = g.power := by
  unfold targetStep add_target
  split
  · dsimp only
    split <;> rfl
  · rfl

lemma targetStep_cursor (g : GameState) (i : ℕ) : (targetStep g i).cursor = g.cursor := by
  unfold targetStep add_target
  split
  · dsimp only
    split <;> rfl
  · rfl

lemma targetStep_height (g : GameState) (i : ℕ) : (targetStep g i).height = g.height := by
  unfold targetStep add_target
  split
  · dsimp only
    split <;> rfl
  · rfl

lemma targetStep_xpos (g : GameState) (i : ℕ) : (targetStep g i).xpos = g.xpos := by
  unfold targetStep add_target
  split
  · dsimp only
    split <;> rfl
  · rfl

lemma targetStep_velocity (g : GameState) (i : ℕ) : (targetStep g i).velocity = g.velocity := by
  unfold targetStep add_target
  split
  · dsimp only
    split <;> rfl
  · rfl

lemma targetStep_controls (g : GameState) (i : ℕ) : (targetStep g i).controls = g.controls := by
  unfold targetStep add_target
  split
  · dsimp only
    split <;> rfl
  · rfl

lemma targetStep_duck_pos (g : GameState) (i : ℕ) : (targetStep g i).duck_pos = g.duck_pos := by
  unfold targetStep add_target
  split
  · dsimp only
    split <;> rfl
  · rfl

lemma targetStep_speed (g : GameState) (i : ℕ) : (targetStep g i).speed = g.speed := by
  unfold targetStep add_target
  split
  · dsimp only
    split <;> rfl
  · rfl

lemma targetStep_increase (g : GameState) (i : ℕ) : (targetStep g i).increase = g.increase := by
  unfold targetStep add_target
  split
  · dsimp only
    split <;> rfl
  · rfl

/-- The loop of `check_targets` preserves any property each iteration
preserves (loop indices are `0, …, 6`). -/
lemma check_targets_pres (P : GameState → Prop)
    (h : ∀ g i, i < 7 → P g → P (targetStep g i)) (g : GameState) (hg : P g) :
    P (check_targets g) := by
  have e : List.range 7 = [0, 1, 2, 3, 4, 5, 6] := rfl
  unfold check_targets
  rw [e]
  simp only [List.foldl_cons, List.foldl_nil]
  exact h _ 6 (by omega) (h _ 5 (by omega) (h _ 4 (by omega) (h _ 3 (by omega)
    (h _ 2 (by omega) (h _ 1 (by omega) (h _ 0 (by omega) hg))))))

lemma check_targets_power (g : GameState) : (check_targets g).power = g.power :=
  check_targets_pres (fun s => s.power = g.power)
    (fun s i _ hs => (targetStep_power s i).trans hs) g rfl

lemma check_targets_cursor (g : GameState) : (check_targets g).cursor = g.cursor :=
  check_targets_pres (fun s => s.cursor = g.cursor)
    (fun s i _ hs => (targetStep_cursor s i).trans hs) g rfl

lemma check_targets_height (g : GameState) : (check_targets g).height = g.height :=
  check_targets_pres (fun s => s.height = g.height)
    (fun s i _ hs => (targetStep_height s i).trans hs) g rfl

lemma check_targets_xpos (g : GameState) : (check_targets g).xpos = g.xpos :=
  check_targets_pres (fun s => s.xpos = g.xpos)
    (fun s i _ hs => (targetStep_xpos s i).trans hs) g rfl

lemma check_targets_velocity (g : GameState) : (check_targets g).velocity = g.velocity :=
  check_targets_pres (fun s => s.velocity = g.velocity)
    (fun s i _ hs => (targetStep_velocity s i).trans hs) g rfl

lemma check_targets_controls (g : GameState) : (check_targets g).controls = g.controls :=
  check_targets_pres (fun s => s.controls = g.controls)
    (fun s i _ hs => (targetStep_controls s i).trans hs) g rfl

lemma check_targets_increase (g : GameState) : (check_targets g).increase = g.increase :=
  check_targets_pres (fun s => s.increase = g.increase)
    (fun s i _ hs => (targetStep_increase s i).trans hs) g rfl

lemma charge_step_height (g : GameState) : (charge_step g).height = g.height := by
  unfold charge_step
  split_ifs <;> rfl

lemma charge_step_xpos (g : GameState) : (charge_step g).xpos = g.xpos := by
  unfold charge_step
  split_ifs <;> rfl

lemma charge_step_velocity (g : GameState) : (charge_step g).velocity = g.velocity := by
  unfold charge_step
  split_ifs <;> rfl

lemma charge_step_controls (g : GameState) : (charge_step g).controls = g.controls := by
  unfold charge_step
  split_ifs <;> rfl

lemma charge_step_targets (g : GameState) : (charge_step g).targets = g.targets := by
  unfold charge_step
  split_ifs <;> rfl

lemma charge_step_enemies (g : GameState) :
    (charge_step g).board_translations = g.board_translations := by
  unfold charge_step
  split_ifs <;> rfl

lemma charge_step_score (g : GameState) : (charge_step g).score = g.score := by
  unfold charge_step
  split_ifs <;> rfl

lemma charge_step_duck_pos (g : GameState) : (charge_step g).duck_pos = g.duck_pos := by
  unfold charge_step
  split_ifs <;> rfl

lemma charge_step_speed (g : GameState) : (charge_step g).speed = g.speed := by
  unfold charge_step
  split_ifs <;> rfl

lemma physics_step_of_not_jump (g : GameState) (dt : ℚ)
    (h : g.controls.jump = false) : physics_step g dt = g := by
  unfold physics_step
  rw [if_neg]
  simp [h]

lemma handle_event_power (g : GameState) (e : Event) :
    (handle_event g e).1.power = g.power := by
  unfold handle_event
  split_ifs <;> rfl

lemma handle_event_cursor (g : GameState) (e : Event) :
    (handle_event g e).1.cursor = g.cursor := by
  unfold handle_event
  split_ifs <;> rfl

lemma handle_event_targets (g : GameState) (e : Event) :
    (handle_event g e).1.targets = g.targets := by
  unfold handle_event
  split_ifs <;> rfl

lemma handle_event_enemies (g : GameState) (e : Event) :
    (handle_event g e).1.board_translations = g.board_translations := by
  unfold handle_event
  split_ifs <;> rfl

lemma handle_event_score (g : GameState) (e : Event) :
    (handle_event g e).1.score = g.score := by
  unfold handle_event
  split_ifs <;> rfl

lemma enemies_step_power (g : GameState) : (enemies_step g).power = g.power := rfl

lemma enemies_step_cursor (g : GameState) : (enemies_step g).cursor = g.cursor := rfl

lemma enemies_step_height (g : GameState) : (enemies_step g).height = g.height := rfl

lemma enemies_step_xpos (g : GameState) : (enemies_step g).xpos = g.xpos := rfl

lemma enemies_step_velocity (g : GameState) : (enemies_step g).velocity = g.velocity := rfl

lemma enemies_step_controls (g : GameState) : (enemies_step g).controls = g.controls := rfl

lemma enemies_step_targets (g : GameState) : (enemies_step g).targets = g.targets := rfl

lemma enemies_step_score (g : GameState) : (enemies_step g).score = g.score := rfl

lemma enemies_step_enemies (g : GameState) :
    (enemies_step g).board_translations =
      g.board_translations.map (advance_enemy g.duck_pos.1 g.height g.speed) := rfl

/-! ### C1: aim angle and charge power stay in bounds -/

/-- Strengthened charge/aim invariant: the cursor is within its bounds and
the power is an exact multiple of 1/10 between 0 and 40 tenths. -/
def AimInv (g : GameState) : Prop :=
  -90 ≤ g.cursor ∧ g.cursor ≤ 90 ∧ ∃ k : ℕ, k ≤ 40 ∧ g.power = (k : ℚ) / 10

lemma power_step_exists (pw : ℚ) (inc : Bool) (k : ℕ) (hk : k ≤ 40)
    (hp : pw = (k : ℚ) / 10) :
    ∃ k' : ℕ, k' ≤ 40 ∧ power_step pw inc = (k' : ℚ) / 10 := by
  unfold power_step
  split_ifs with hA hB
  · obtain ⟨-, hlt⟩ := hA
    rw [hp, max_power] at hlt
    have hk40 : k < 40 := by
      have hq : (k : ℚ) < 40 := by linarith
      exact_mod_cast hq
    exact ⟨k + 1, by omega, by rw [hp]; push_cast; ring⟩
  · obtain ⟨-, hpos⟩ := hB
    rw [hp] at hpos
    have hk1 : 1 ≤ k := by
      rcases Nat.eq_zero_or_pos k with h0 | h1
      · rw [h0] at hpos; norm_num at hpos
      · omega
    refine ⟨k - 1, by omega, ?_⟩
    rw [hp, Nat.cast_sub hk1]
    push_cast
    ring
  · exact ⟨k, hk, hp⟩

lemma aimInv_charge_step (g : GameState) (h : AimInv g) : AimInv (charge_step g) := by
  obtain ⟨h1, h2, k, hk, hp⟩ := h
  unfold charge_step
  split_ifs with c1 c2 c3
  · obtain ⟨-, hgt⟩ := c1
    refine ⟨?_, ?_, k, hk, hp⟩
    · show -90 ≤ g.cursor - 1
      omega
    · show g.cursor - 1 ≤ 90
      omega
  · obtain ⟨-, hlt⟩ := c2
    refine ⟨?_, ?_, k, hk, hp⟩
    · show -90 ≤ g.cursor + 1
      omega
    · show g.cursor + 1 ≤ 90
      omega
  · exact ⟨h1, h2, power_step_exists g.power g.increase k hk hp⟩
  · exact ⟨h1, h2, k, hk, hp⟩

lemma aimInv_check_targets (g : GameState) (h : AimInv g) : AimInv (check_targets g) := by
  refine check_targets_pres AimInv (fun s i _ hs => ?_) g h
  unfold AimInv at hs ⊢
  rw [targetStep_cursor, targetStep_power]
  exact hs

lemma aimInv_physics_step (g : GameState) (dt : ℚ) (h : AimInv g) :
    AimInv (physics_step g dt) := by
  unfold physics_step
  split_ifs with hj hland
  · refine aimInv_check_targets _ ⟨h.1, h.2.1, 0, by omega, ?_⟩
    show (0 : ℚ) = ((0 : ℕ) : ℚ) / 10
    norm_num
  · exact aimInv_check_targets _ ⟨h.1, h.2.1, h.2.2⟩
  · exact h

lemma aimInv_enemies_step (g : GameState) (h : AimInv g) : AimInv (enemies_step g) := h

lemma aimInv_handle_event (g : GameState) (e : Event) (h : AimInv g) :
    AimInv (handle_event g e).1 := by
  unfold AimInv at h ⊢
  rw [handle_event_cursor, handle_event_power]
  exact h

lemma aimInv_init (seq : ℕ → ℚ × ℚ) : AimInv (initGame seq) := by
  have hc : (initGame seq).cursor = 0 := rfl
  have hp : (initGame seq).power = 0 := rfl
  refine ⟨by rw [hc]; norm_num, by rw [hc]; norm_num, 0, by omega, by rw [hp]; norm_num⟩

lemma reach_aimInv (seq : ℕ → ℚ × ℚ) (g : GameState) (h : Reachable seq g) : AimInv g := by
  induction h with
  | init => exact aimInv_init seq
  | step g' dt _ ih =>
    exact aimInv_enemies_step _ (aimInv_physics_step _ _ (aimInv_charge_step _ ih))
  | ev g' e _ ih => exact aimInv_handle_event _ _ ih

/-- C1: for every sequence of `update` (and `handle_event`) calls starting
from the initial game state, the aim cursor stays within `[-90, 90]` and the
charge power stays within `[0, max_power] = [0, 4]`; in particular no update
with the charge held pushes the power strictly above `max_power` or strictly
below `0`. -/
theorem aim_power_bounds (seq : ℕ → ℚ × ℚ) (g : GameState) (h : Reachable seq g) :
    -90 ≤ g.cursor ∧ g.cursor ≤ 90 ∧ 0 ≤ g.power ∧ g.power ≤ max_power := by
  obtain ⟨h1, h2, k, hk, hp⟩ := reach_aimInv seq g h
  refine ⟨h1, h2, by rw [hp]; positivity, ?_⟩
  rw [hp, max_power]
  have hc : (k : ℚ) ≤ 40 := by exact_mod_cast hk
  linarith

/-- Witness for C1 at the initial state of a concrete spawn oracle. -/
theorem aim_power_bounds_witness :
    -90 ≤ (initGame fun _ => (0, 2)).cursor ∧ (initGame fun _ => (0, 2)).cursor ≤ 90 ∧
      0 ≤ (initGame fun _ => (0, 2)).power ∧ (initGame fun _ => (0, 2)).power ≤ max_power :=
  aim_power_bounds (fun _ => (0, 2)) (initGame fun _ => (0, 2)) Reachable.init

/-! ### C6: the target pool always holds exactly 7 targets -/

lemma targetStep_targets_len (g : GameState) (i : ℕ) (hi : i < 7)
    (hg : g.targets.length = 7) : (targetStep g i).targets.length = 7 := by
  unfold targetStep add_target
  split
  · dsimp only
    have he : (g.targets.eraseIdx i).length + 1 = g.targets.length :=
      List.length_eraseIdx_add_one (by omega)
    split <;> · dsimp only; rw [List.length_append]; simp only [List.length_cons,
        List.length_nil]; omega
  · exact hg

lemma targets7_check_targets (g : GameState) (hg : g.targets.length = 7) :
    (check_targets g).targets.length = 7 :=
  check_targets_pres (fun s => s.targets.length = 7) targetStep_targets_len g hg

lemma targets7_physics_step (g : GameState) (dt : ℚ) (hg : g.targets.length = 7) :
    (physics_step g dt).targets.length = 7 := by
  unfold physics_step
  split_ifs with hj hland
  · exact targets7_check_targets _ hg
  · exact targets7_check_targets _ hg
  · exact hg

lemma targets7_update (g : GameState) (dt : ℚ) (hg : g.targets.length = 7) :
    (update g dt).targets.length = 7 := by
  have h1 : (charge_step g).targets.length = 7 := by rw [charge_step_targets]; exact hg
  have h2 := targets7_physics_step (charge_step g) dt h1
  show (enemies_step (physics_step (charge_step g) dt)).targets.length = 7
  rw [enemies_step_targets]
  exact h2

lemma targets7_init (seq : ℕ → ℚ × ℚ) : (initGame seq).targets.length = 7 := rfl

lemma reach_targets7 (seq : ℕ → ℚ × ℚ) (g : GameState) (h : Reachable seq g) :
    g.targets.length = 7 := by
  induction h with
  | init => exact targets7_init seq
  | step g' dt _ ih => exact targets7_update g' dt ih
  | ev g' e _ ih => rw [handle_event_targets]; exact ih

/-- C6: the target pool holds exactly 7 targets after initialisation and
after every `update` call (and every `handle_event` call), including frames
on which targets are hit: each consumed target is erased and replaced within
the same frame. -/
theorem target_pool_size (seq : ℕ → ℚ × ℚ) (g : GameState) (h : Reachable seq g) :
    g.targets.length = 7 :=
  reach_targets7 seq g h

/-- Witness for C6 at the initial state of a concrete spawn oracle. -/
theorem target_pool_size_witness : (initGame fun _ => (0, 2)).targets.length = 7 :=
  target_pool_size (fun _ => (0, 2)) (initGame fun _ => (0, 2)) Reachable.init

/-! ### C7: score increments and enemy milestones -/

lemma targetStep_score (g : GameState) (i : ℕ) :
    (targetStep g i).score = g.score +
      (if hitTest (g.duck_pos.1, g.height) (g.targets.getD i (0, 0)) then 1 else 0) := by
  unfold targetStep add_target
  by_cases h : hitTest (g.duck_pos.1, g.height) (g.targets.getD i (0, 0)) = true
  · rw [if_pos h, if_pos h]
    dsimp only
    split <;> rfl
  · rw [if_neg h, if_neg h]
    simp

lemma targetStep_enemies_len (g : GameState) (i : ℕ) :
    (targetStep g i).board_translations.length = g.board_translations.length +
      (if hitTest (g.duck_pos.1, g.height) (g.targets.getD i (0, 0)) = true ∧
          (g.score + 1) % 10 = 0 then 1 else 0) := by
  unfold targetStep add_target
  by_cases h : hitTest (g.duck_pos.1, g.height) (g.targets.getD i (0, 0)) = true
  · rw [if_pos h]
    dsimp only
    by_cases hm : (g.score + 1) % 10 = 0
    · rw [if_pos hm, if_pos ⟨h, hm⟩]
      rw [List.length_append]
      rfl
    · rw [if_neg hm, if_neg (fun hc => hm hc.2)]
      rfl
  · rw [if_neg h, if_neg (fun hc => h hc.1)]
    rfl

/-- Enemy-count invariant: one initial enemy plus one per 10 points. -/
def EnemyInv (g : GameState) : Prop :=
  g.board_translations.length = 1 + g.score / 10

lemma enemyInv_targetStep (g : GameState) (i : ℕ) (h : EnemyInv g) :
    EnemyInv (targetStep g i) := by
  unfold EnemyInv at h ⊢
  rw [targetStep_enemies_len, targetStep_score]
  split_ifs with c1 c2 c3
  · have hm := c1.2
    omega
  · exact absurd c1.1 c2
  · have hm : ¬ (g.score + 1) % 10 = 0 := fun hm => c1 ⟨c3, hm⟩
    omega
  · omega

lemma enemyInv_check_targets (g : GameState) (h : EnemyInv g) :
    EnemyInv (check_targets g) :=
  check_targets_pres EnemyInv (fun s i _ hs => enemyInv_targetStep s i hs) g h

lemma enemyInv_physics_step (g : GameState) (dt : ℚ) (h : EnemyInv g) :
    EnemyInv (physics_step g dt) := by
  unfold physics_step
  split_ifs with hj hland
  · exact enemyInv_check_targets _ h
  · exact enemyInv_check_targets _ h
  · exact h

lemma enemyInv_update (g : GameState) (dt : ℚ) (h : EnemyInv g) :
    EnemyInv (update g dt) := by
  have h1 : EnemyInv (charge_step g) := by
    unfold EnemyInv
    rw [charge_step_enemies, charge_step_score]
    exact h
  have h2 := enemyInv_physics_step (charge_step g) dt h1
  show EnemyInv (enemies_step (physics_step (charge_step g) dt))
  unfold EnemyInv at h2 ⊢
  rw [enemies_step_enemies, enemies_step_score, List.length_map]
  exact h2

lemma reach_enemyInv (seq : ℕ → ℚ × ℚ) (g : GameState) (h : Reachable seq g) :
    EnemyInv g := by
  induction h with
  | init =>
    show (initGame seq).board_translations.length = 1 + (initGame seq).score / 10
    norm_num [initGame, base_state, add_target]
  | step g' dt _ ih => exact enemyInv_update g' dt ih
  | ev g' e _ ih =>
    unfold EnemyInv at ih ⊢
    rw [handle_event_enemies, handle_event_score]
    exact ih

lemma targetStep_enemies_mono (g : GameState) (i : ℕ) :
    g.board_translations.length ≤ (targetStep g i).board_translations.length := by
  rw [targetStep_enemies_len]
  split_ifs <;> omega

lemma check_targets_enemies_mono (g : GameState) :
    g.board_translations.length ≤ (check_targets g).board_translations.length :=
  check_targets_pres (fun s => g.board_translations.length ≤ s.board_translations.length)
    (fun s i _ hs => le_trans hs (targetStep_enemies_mono s i)) g le_rfl

lemma update_enemies_mono (g : GameState) (dt : ℚ) :
    g.board_translations.length ≤ (update g dt).board_translations.length := by
  show g.board_translations.length ≤
    (enemies_step (physics_step (charge_step g) dt)).board_translations.length
  rw [enemies_step_enemies, List.length_map]
  have h1 : (charge_step g).board_translations = g.board_translations :=
    charge_step_enemies g
  unfold physics_step
  split_ifs with hj hland
  · refine le_trans ?_ (check_targets_enemies_mono _)
    dsimp only
    rw [h1]
  · refine le_trans ?_ (check_targets_enemies_mono _)
    dsimp only
    rw [h1]
  · rw [h1]

/-- C7: each resolved target contact increments the score by exactly 1;
exactly one enemy is appended on that contact when and only when the
post-increment score is divisible by 10; the enemy pool never shrinks under
`update`; hence every reachable state has `1 + score / 10` enemies, so a
reachable state with score 30 has 3 enemies beyond the initial one. -/
theorem score_enemy_milestones :
    (∀ (g : GameState) (i : ℕ), (targetStep g i).score = g.score +
        (if hitTest (g.duck_pos.1, g.height) (g.targets.getD i (0, 0)) then 1 else 0)) ∧
    (∀ (g : GameState) (i : ℕ),
        (targetStep g i).board_translations.length = g.board_translations.length +
          (if hitTest (g.duck_pos.1, g.height) (g.targets.getD i (0, 0)) = true ∧
              (g.score + 1) % 10 = 0 then 1 else 0)) ∧
    (∀ (g : GameState) (dt : ℚ),
        g.board_translations.length ≤ (update g dt).board_translations.length) ∧
    (∀ (seq : ℕ → ℚ × ℚ) (g : GameState), Reachable seq g →
        g.board_translations.length = 1 + g.score / 10) ∧
    (∀ (seq : ℕ → ℚ × ℚ) (g : GameState), Reachable seq g → g.score = 30 →
        g.board_translations.length = 4) := by
  refine ⟨targetStep_score, targetStep_enemies_len, update_enemies_mono,
    fun seq g h => reach_enemyInv seq g h, fun seq g h h30 => ?_⟩
  have := reach_enemyInv seq g h
  unfold EnemyInv at this
  rw [this, h30]

/-- Witness for C7: instantiates every part at the initial state of a
concrete spawn oracle (and loop index 0). -/
theorem score_enemy_milestones_witness :
    ((targetStep (initGame fun _ => (0, 2)) 0).score = (initGame fun _ => (0, 2)).score +
      (if hitTest ((initGame fun _ => (0, 2)).duck_pos.1, (initGame fun _ => (0, 2)).height)
          ((initGame fun _ => (0, 2)).targets.getD 0 (0, 0)) then 1 else 0)) ∧
    ((initGame fun _ => (0, 2)).board_translations.length ≤
      (update (initGame fun _ => (0, 2)) 1).board_translations.length) ∧
    ((initGame fun _ => (0, 2)).board_translations.length =
      1 + (initGame fun _ => (0, 2)).score / 10) :=
  ⟨score_enemy_milestones.1 (initGame fun _ => (0, 2)) 0,
    score_enemy_milestones.2.2.1 (initGame fun _ => (0, 2)) 1,
    score_enemy_milestones.2.2.2.1 (fun _ => (0, 2)) (initGame fun _ => (0, 2)) Reachable.init⟩

/-! ### Physics frame helpers -/

lemma integ_height_charge (g : GameState) (dt : ℚ) :
    integ_height (charge_step g) dt = integ_height g dt := by
  unfold integ_height
  rw [charge_step_height, charge_step_velocity]

lemma integ_xpos_charge (g : GameState) (dt : ℚ) :
    integ_xpos (charge_step g) dt = integ_xpos g dt := by
  unfold integ_xpos
  rw [charge_step_xpos, charge_step_velocity]

lemma integ_vy_charge (g : GameState) (dt : ℚ) :
    integ_vy (charge_step g) dt = integ_vy g dt := by
  unfold integ_vy
  rw [charge_step_velocity]

lemma bounce_vx_charge (g : GameState) (dt : ℚ) :
    bounce_vx (charge_step g) dt = bounce_vx g dt := by
  unfold bounce_vx
  rw [integ_xpos_charge, charge_step_velocity]

lemma clamp_vy_charge (g : GameState) (dt : ℚ) :
    clamp_vy (charge_step g) dt = clamp_vy g dt := by
  unfold clamp_vy
  rw [integ_height_charge, integ_vy_charge]

lemma physics_no_land (g : GameState) (dt : ℚ) (hj : g.controls.jump = true)
    (hnl : ¬ integ_height g dt < 1/100) :
    (physics_step g dt).height = integ_height g dt ∧
    (physics_step g dt).xpos = integ_xpos g dt ∧
    (physics_step g dt).velocity = (bounce_vx g dt, clamp_vy g dt) ∧
    (physics_step g dt).controls = g.controls ∧
    (physics_step g dt).power = g.power := by
  unfold physics_step
  rw [if_pos hj, if_neg hnl]
  exact ⟨by rw [check_targets_height], by rw [check_targets_xpos],
    by rw [check_targets_velocity], by rw [check_targets_controls],
    by rw [check_targets_power]⟩

lemma physics_land (g : GameState) (dt : ℚ) (hj : g.controls.jump = true)
    (hl : integ_height g dt < 1/100) :
    (physics_step g dt).height = 0 ∧
    (physics_step g dt).power = 0 ∧
    (physics_step g dt).velocity = (0, clamp_vy g dt) ∧
    (physics_step g dt).controls = { g.controls with jump := false } ∧
    (physics_step g dt).xpos = integ_xpos g dt := by
  unfold physics_step
  rw [if_pos hj, if_pos hl]
  exact ⟨by rw [check_targets_height], by rw [check_targets_power],
    by rw [check_targets_velocity], by rw [check_targets_controls],
    by rw [check_targets_xpos]⟩

lemma charge_step_power_of_not_up (g : GameState) (h : g.controls.up = false) :
    (charge_step g).power = g.power := by
  unfold charge_step
  split_ifs with c1 c2 c3
  · rfl
  · rfl
  · rw [h] at c3
    exact absurd c3 (by simp)
  · rfl

/-! ### C3: the landing transition fires once and is not re-triggered -/

/-- C3: an airborne `update` whose integrated height ends below `0.01`
lands: the post-state has height 0, power 0, horizontal velocity 0 and the
airborne flag cleared.  And while resting (`jump = false`), `update` leaves
height, horizontal position, velocity and the airborne flag untouched, and
the power as well unless the player is charging (`controls.up`), so the
landing logic cannot re-fire. -/
theorem landing_once (g : GameState) (dt : ℚ) :
    (g.controls.jump = true → integ_height g dt < 1/100 →
      (update g dt).height = 0 ∧ (update g dt).power = 0 ∧
        (update g dt).velocity.1 = 0 ∧ (update g dt).controls.jump = false) ∧
    (g.controls.jump = false →
      (update g dt).height = g.height ∧ (update g dt).xpos = g.xpos ∧
        (update g dt).velocity = g.velocity ∧ (update g dt).controls.jump = false ∧
        (g.controls.up = false → (update g dt).power = g.power)) := by
  constructor
  · intro hj hl
    have hj' : (charge_step g).controls.jump = true := by
      rw [charge_step_controls]; exact hj
    have hl' : integ_height (charge_step g) dt < 1/100 := by
      rw [integ_height_charge]; exact hl
    obtain ⟨hH, hP, hV, hC, -⟩ := physics_land (charge_step g) dt hj' hl'
    refine ⟨?_, ?_, ?_, ?_⟩
    · show (enemies_step (physics_step (charge_step g) dt)).height = 0
      rw [enemies_step_height, hH]
    · show (enemies_step (physics_step (charge_step g) dt)).power = 0
      rw [enemies_step_power, hP]
    · show (enemies_step (physics_step (charge_step g) dt)).velocity.1 = 0
      rw [enemies_step_velocity, hV]
    · show (enemies_step (physics_step (charge_step g) dt)).controls.jump = false
      rw [enemies_step_controls, hC]
  · intro hj
    have hj' : (charge_step g).controls.jump = false := by
      rw [charge_step_controls]; exact hj
    have hphys : physics_step (charge_step g) dt = charge_step g :=
      physics_step_of_not_jump _ _ hj'
    refine ⟨?_, ?_, ?_, ?_, ?_⟩
    · show (enemies_step (physics_step (charge_step g) dt)).height = g.height
      rw [enemies_step_height, hphys, charge_step_height]
    · show (enemies_step (physics_step (charge_step g) dt)).xpos = g.xpos
      rw [enemies_step_xpos, hphys, charge_step_xpos]
    · show (enemies_step (physics_step (charge_step g) dt)).velocity = g.velocity
      rw [enemies_step_velocity, hphys, charge_step_velocity]
    · show (enemies_step (physics_step (charge_step g) dt)).controls.jump = false
      rw [enemies_step_controls, hphys, charge_step_controls]
      exact hj
    · intro hup
      show (enemies_step (physics_step (charge_step g) dt)).power = g.power
      rw [enemies_step_power, hphys, charge_step_power_of_not_up g hup]

/-- A resting sample state over a concrete spawn oracle. -/
def duck0 : GameState := base_state (fun _ => (0, 2))

/-- The same sample state, airborne. -/
def duckJ : GameState := { duck0 with controls := ⟨false, false, false, false, true⟩ }

/-- Witness for C3: a concrete landing frame and a concrete resting frame. -/
theorem landing_once_witness :
    ((update duckJ 0).height = 0 ∧ (update duckJ 0).power = 0 ∧
      (update duckJ 0).velocity.1 = 0 ∧ (update duckJ 0).controls.jump = false) ∧
    ((update duck0 0).height = duck0.height ∧ (update duck0 0).xpos = duck0.xpos ∧
      (update duck0 0).velocity = duck0.velocity ∧
      (update duck0 0).controls.jump = false ∧
      (duck0.controls.up = false → (update duck0 0).power = duck0.power)) :=
  ⟨(landing_once duckJ 0).1 rfl (by norm_num [integ_height, duckJ, duck0, base_state]),
    ⟨((landing_once duck0 0).2 rfl).1, ((landing_once duck0 0).2 rfl).2.1,
      ((landing_once duck0 0).2 rfl).2.2.1, ((landing_once duck0 0).2 rfl).2.2.2.1,
      fun _ => ((landing_once duck0 0).2 rfl).2.2.2.2 rfl⟩⟩

/-! ### C5: the airborne integration formulas -/

/-- C5: on an airborne `update` step on which neither the landing snap nor
the apex clamp fires (the integrated height stays in `[0.01, 3.6]`), the new
height is `y + dt*(vy + dt*(-4.9))` — computed from the pre-decrement
vertical velocity — the new vertical velocity is `vy + dt*(-4.9)` with
gravity constant exactly 4.9, and the new horizontal position is
`x + dt*vx`. -/
theorem airborne_integration (g : GameState) (dt : ℚ)
    (hj : g.controls.jump = true)
    (h1 : 1/100 ≤ integ_height g dt)
    (h2 : integ_height g dt ≤ 18/5) :
    (update g dt).height = g.height + dt * (g.velocity.2 + dt * (-49/10)) ∧
    (update g dt).velocity.2 = g.velocity.2 + dt * (-49/10) ∧
    (update g dt).xpos = g.xpos + dt * g.velocity.1 := by
  have hj' : (charge_step g).controls.jump = true := by
    rw [charge_step_controls]; exact hj
  have hnl : ¬ integ_height (charge_step g) dt < 1/100 := by
    rw [integ_height_charge]; exact not_lt.mpr h1
  obtain ⟨hH, hX, hV, -, -⟩ := physics_no_land (charge_step g) dt hj' hnl
  refine ⟨?_, ?_, ?_⟩
  · show (enemies_step (physics_step (charge_step g) dt)).height = _
    rw [enemies_step_height, hH, integ_height_charge]
    rfl
  · show (enemies_step (physics_step (charge_step g) dt)).velocity.2 = _
    rw [enemies_step_velocity, hV]
    show clamp_vy (charge_step g) dt = _
    rw [clamp_vy_charge]
    unfold clamp_vy
    rw [if_neg (not_lt.mpr h2)]
    rfl
  · show (enemies_step (physics_step (charge_step g) dt)).xpos = _
    rw [enemies_step_xpos, hX, integ_xpos_charge]
    rfl

/-- A concrete mid-flight state: airborne at height 1 over the left half of
the board, rising slowly. -/
def duckMid : GameState :=
  { duck0 with
      controls := ⟨false, false, false, false, true⟩,
      height := 1, xpos := 2, velocity := (1, 1) }

/-- Witness for C5 on a concrete mid-flight frame. -/
theorem airborne_integration_witness :
    (update duckMid (1/10)).height =
        duckMid.height + (1/10) * (duckMid.velocity.2 + (1/10) * (-49/10)) ∧
    (update duckMid (1/10)).velocity.2 = duckMid.velocity.2 + (1/10) * (-49/10) ∧
    (update duckMid (1/10)).xpos = duckMid.xpos + (1/10) * duckMid.velocity.1 :=
  airborne_integration duckMid (1/10) rfl
    (by norm_num [integ_height, duckMid, duck0, base_state])
    (by norm_num [integ_height, duckMid, duck0, base_state])

/-! ### C8: wall bounce damping -/

/-- C8: on an airborne `update` step whose integrated horizontal position
leaves `[-0.5, 5.5]` and which does not land, the horizontal velocity is
multiplied by `-0.8`. -/
theorem wall_bounce (g : GameState) (dt : ℚ)
    (hj : g.controls.jump = true)
    (hx : integ_xpos g dt < -1/2 ∨ integ_xpos g dt > 11/2)
    (hnl : 1/100 ≤ integ_height g dt) :
    (update g dt).velocity.1 = g.velocity.1 * (-4/5) := by
  have hj' : (charge_step g).controls.jump = true := by
    rw [charge_step_controls]; exact hj
  have hnl' : ¬ integ_height (charge_step g) dt < 1/100 := by
    rw [integ_height_charge]; exact not_lt.mpr hnl
  obtain ⟨-, -, hV, -, -⟩ := physics_no_land (charge_step g) dt hj' hnl'
  show (enemies_step (physics_step (charge_step g) dt)).velocity.1 = _
  rw [enemies_step_velocity, hV]
  show bounce_vx (charge_step g) dt = _
  rw [bounce_vx_charge]
  unfold bounce_vx
  rw [if_pos hx]

/-- A concrete bouncing state: airborne at the right wall with `vx = 1`,
so one step of `0.1` seconds ends at `x = 5.6`. -/
def duckWall : GameState :=
  { duck0 with
      controls := ⟨false, false, false, false, true⟩,
      height := 1, xpos := 11/2, velocity := (1, 0) }

/-- Witness for C8: the spec's own instance — a frame ending at `x = 5.6`
with `vx = 1` leaves `vx = -0.8`. -/
theorem wall_bounce_witness :
    integ_xpos duckWall (1/10) = 28/5 ∧ (update duckWall (1/10)).velocity.1 = -4/5 := by
  have hx : integ_xpos duckWall (1/10) = 28/5 := by
    norm_num [integ_xpos, duckWall, duck0, base_state]
  refine ⟨hx, ?_⟩
  have h := wall_bounce duckWall (1/10) rfl (Or.inr (by rw [hx]; norm_num))
    (by norm_num [integ_height, duckWall, duck0, base_state])
  rw [h]
  show (1 : ℚ) * (-4/5) = -4/5
  norm_num

/-! ### C9: the landing snap leaves xpos and vertical velocity alone -/

/-- C9: on a landing `update` step the horizontal position keeps its
integrated value `x + dt*vx` (so the next launch starts where the flight
ended, not at the origin) and the vertical velocity keeps its post-gravity
value `vy + dt*(-4.9)`; only height, power, horizontal velocity and the
airborne flag are overwritten by the snap. -/
theorem landing_keeps_xpos_vy (g : GameState) (dt : ℚ)
    (hj : g.controls.jump = true)
    (hl : integ_height g dt < 1/100) :
    (update g dt).xpos = g.xpos + dt * g.velocity.1 ∧
    (update g dt).velocity.2 = g.velocity.2 + dt * (-49/10) ∧
    (update g dt).height = 0 ∧
    (update g dt).power = 0 ∧
    (update g dt).velocity.1 = 0 ∧
    (update g dt).controls.jump = false := by
  have hj' : (charge_step g).controls.jump = true := by
    rw [charge_step_controls]; exact hj
  have hl' : integ_height (charge_step g) dt < 1/100 := by
    rw [integ_height_charge]; exact hl
  obtain ⟨hH, hP, hV, hC, hX⟩ := physics_land (charge_step g) dt hj' hl'
  have hclamp : clamp_vy (charge_step g) dt = g.velocity.2 + dt * (-49/10) := by
    rw [clamp_vy_charge]
    unfold clamp_vy
    rw [if_neg (not_lt.mpr (le_trans (le_of_lt hl) (by norm_num)))]
    rfl
  refine ⟨?_, ?_, ?_, ?_, ?_, ?_⟩
  · show (enemies_step (physics_step (charge_step g) dt)).xpos = _
    rw [enemies_step_xpos, hX, integ_xpos_charge]
    rfl
  · show (enemies_step (physics_step (charge_step g) dt)).velocity.2 = _
    rw [enemies_step_velocity, hV]
    exact hclamp
  · show (enemies_step (physics_step (charge_step g) dt)).height = 0
    rw [enemies_step_height, hH]
  · show (enemies_step (physics_step (charge_step g) dt)).power = 0
    rw [enemies_step_power, hP]
  · show (enemies_step (physics_step (charge_step g) dt)).velocity.1 = 0
    rw [enemies_step_velocity, hV]
  · show (enemies_step (physics_step (charge_step g) dt)).controls.jump = false
    rw [enemies_step_controls, hC]

/-- A concrete landing state: airborne just above the ground at `x = 3`,
drifting right while falling. -/
def duckLand : GameState :=
  { duck0 with
      controls := ⟨false, false, false, false, true⟩,
      height := 1/200, xpos := 3, velocity := (1, -1) }

/-- Witness for C9 on a concrete landing frame. -/
theorem landing_keeps_xpos_vy_witness :
    (update duckLand (1/10)).xpos = duckLand.xpos + (1/10) * duckLand.velocity.1 ∧
    (update duckLand (1/10)).velocity.2 = duckLand.velocity.2 + (1/10) * (-49/10) ∧
    (update duckLand (1/10)).height = 0 ∧
    (update duckLand (1/10)).power = 0 ∧
    (update duckLand (1/10)).velocity.1 = 0 ∧
    (update duckLand (1/10)).controls.jump = false :=
  landing_keeps_xpos_vy duckLand (1/10) rfl
    (by norm_num [integ_height, duckLand, duck0, base_state])

/-! ### C4: launch velocity computed on charge release -/

/-- C4: every release of the charge key (a space key-up event) sets the
launch-pending flag and overwrites the velocity with
`(cursor/30, 2.5*power)`; in particular at angle 0 the launch velocity is
`(0, 2.5*power)` and at angle 30 its horizontal component is 1. -/
theorem launch_velocity (g : GameState) (e : Event)
    (ht : e.etype = EvType.keyup) (hc : e.code = Scancode.space) :
    (handle_event g e).1.controls.jump = true ∧
    (handle_event g e).1.velocity = ((g.cursor : ℚ) / 30, 5/2 * g.power) ∧
    (g.cursor = 0 → (handle_event g e).1.velocity = (0, 5/2 * g.power)) ∧
    (g.cursor = 30 → (handle_event g e).1.velocity.1 = 1) := by
  obtain ⟨et, cd, r⟩ := e
  simp only at ht hc
  subst ht
  subst hc
  refine ⟨by simp [handle_event], by simp [handle_event], ?_, ?_⟩
  · intro h0
    simp [handle_event, h0]
  · intro h30
    simp [handle_event, h30]

/-- Witness for C4: a space key-up at angle 30 with power 2. -/
theorem launch_velocity_witness :
    (handle_event { duck0 with cursor := 30, power := 2 }
        ⟨EvType.keyup, Scancode.space, false⟩).1.controls.jump = true ∧
    (handle_event { duck0 with cursor := 30, power := 2 }
        ⟨EvType.keyup, Scancode.space, false⟩).1.velocity = (((30 : ℤ) : ℚ) / 30, 5/2 * 2) ∧
    (handle_event { duck0 with cursor := 30, power := 2 }
        ⟨EvType.keyup, Scancode.space, false⟩).1.velocity.1 = 1 := by
  have h := launch_velocity { duck0 with cursor := 30, power := 2 }
    ⟨EvType.keyup, Scancode.space, false⟩ rfl rfl
  exact ⟨h.1, h.2.1, h.2.2.2 rfl⟩

/-! ### C10: a charge release acts the same whether or not airborne -/

/-- C10: `handle_event` processes a space key-up identically whatever the
current airborne flag is: the result does not depend on `controls.jump`, the
launch-pending flag is set, and the velocity is overwritten with
`(cursor/30, 2.5*power)` — so releasing the charge mid-flight restarts the
flight with the newly computed velocity. -/
theorem release_ignores_airborne (g : GameState) (e : Event) (b1 b2 : Bool)
    (ht : e.etype = EvType.keyup) (hc : e.code = Scancode.space) :
    handle_event { g with controls := { g.controls with jump := b1 } } e =
      handle_event { g with controls := { g.controls with jump := b2 } } e ∧
    (handle_event { g with controls := { g.controls with jump := b1 } } e).1.controls.jump
      = true ∧
    (handle_event { g with controls := { g.controls with jump := b1 } } e).1.velocity
      = ((g.cursor : ℚ) / 30, 5/2 * g.power) := by
  obtain ⟨et, cd, r⟩ := e
  simp only at ht hc
  subst ht
  subst hc
  exact ⟨by simp [handle_event], by simp [handle_event], by simp [handle_event]⟩

/-- Witness for C10: the same release event applied to the resting and the
airborne variant of a concrete state. -/
theorem release_ignores_airborne_witness :
    handle_event { duck0 with controls := { duck0.controls with jump := true } }
        ⟨EvType.keyup, Scancode.space, false⟩ =
      handle_event { duck0 with controls := { duck0.controls with jump := false } }
        ⟨EvType.keyup, Scancode.space, false⟩ ∧
    (handle_event { duck0 with controls := { duck0.controls with jump := true } }
        ⟨EvType.keyup, Scancode.space, false⟩).1.controls.jump = true ∧
    (handle_event { duck0 with controls := { duck0.controls with jump := true } }
        ⟨EvType.keyup, Scancode.space, false⟩).1.velocity =
      ((duck0.cursor : ℚ) / 30, 5/2 * duck0.power) :=
  release_ignores_airborne duck0 ⟨EvType.keyup, Scancode.space, false⟩ true false rfl rfl

/-! ### C2: enemy homing and the speed threshold -/

lemma advance_enemy_dist2 (dx h s : ℚ) (e : ℚ × ℚ) (hs : s ≠ 0) :
    dist2 (advance_enemy dx h s e) (dx, h) =
      (1 - 1 / (400 * s))^2 * dist2 e (dx, h) := by
  unfold advance_enemy dist2
  field_simp
  ring

lemma advance_enemy_contracts (dx h s : ℚ) (e : ℚ × ℚ)
    (hs : 1/800 < s) (hne : dist2 e (dx, h) ≠ 0) :
    dist2 (advance_enemy dx h s e) (dx, h) < dist2 e (dx, h) := by
  have hs0 : 0 < s := lt_trans (by norm_num) hs
  have h400 : (0 : ℚ) < 400 * s := by linarith
  have hkey := advance_enemy_dist2 dx h s e (ne_of_gt hs0)
  have ht0 : 0 < 1 / (400 * s) := by positivity
  have ht2 : 1 / (400 * s) < 2 := by
    rw [div_lt_iff₀ h400]
    linarith
  have hfac : (1 - 1 / (400 * s))^2 < 1 := by
    nlinarith [mul_pos ht0 (show (0 : ℚ) < 2 - 1 / (400 * s) by linarith)]
  have hd0 : 0 ≤ dist2 e (dx, h) := by
    unfold dist2
    positivity
  have hdpos : 0 < dist2 e (dx, h) := lt_of_le_of_ne hd0 (Ne.symm hne)
  calc dist2 (advance_enemy dx h s e) (dx, h)
      = (1 - 1 / (400 * s))^2 * dist2 e (dx, h) := hkey
    _ < 1 * dist2 e (dx, h) := by
        exact mul_lt_mul_of_pos_right hfac hdpos
    _ = dist2 e (dx, h) := one_mul _

/-- C2 (amended): on an `update` call with the duck at rest — so the chase
point `(duck_pos.x, height)` is stationary over the frame — every enemy at
nonzero distance from that point strictly decreases its Euclidean distance
to it, provided `speed > 1/800` (equivalently, damping `400*speed > 1/2`;
the game's default `speed = 0.5` qualifies).  For `speed ≤ 1/800` this
fails (see the counterexample). -/
theorem enemy_homing_contracts (g : GameState) (dt : ℚ) (i : ℕ)
    (hj : g.controls.jump = false)
    (hs : 1/800 < g.speed)
    (hi : i < g.board_translations.length)
    (hne : dist2 (g.board_translations.getD i (0, 0)) (g.duck_pos.1, g.height) ≠ 0) :
    Real.sqrt
        (dist2 ((update g dt).board_translations.getD i (0, 0)) (g.duck_pos.1, g.height))
      < Real.sqrt (dist2 (g.board_translations.getD i (0, 0)) (g.duck_pos.1, g.height)) := by
  have hj' : (charge_step g).controls.jump = false := by
    rw [charge_step_controls]; exact hj
  have hphys : physics_step (charge_step g) dt = charge_step g :=
    physics_step_of_not_jump _ _ hj'
  have hlist : (update g dt).board_translations =
      g.board_translations.map (advance_enemy g.duck_pos.1 g.height g.speed) := by
    show (enemies_step (physics_step (charge_step g) dt)).board_translations = _
    rw [enemies_step_enemies, hphys, charge_step_enemies, charge_step_duck_pos,
      charge_step_height, charge_step_speed]
  have hget : (update g dt).board_translations.getD i (0, 0) =
      advance_enemy g.duck_pos.1 g.height g.speed
        (g.board_translations.getD i (0, 0)) := by
    rw [hlist, List.getD_eq_getElem?_getD, List.getElem?_map,
      List.getD_eq_getElem?_getD, List.getElem?_eq_getElem hi]
    rfl
  rw [hget]
  have hq := advance_enemy_contracts g.duck_pos.1 g.height g.speed
    (g.board_translations.getD i (0, 0)) hs hne
  have hcast :
      ((dist2 (advance_enemy g.duck_pos.1 g.height g.speed
          (g.board_translations.getD i (0, 0))) (g.duck_pos.1, g.height) : ℚ) : ℝ) <
        ((dist2 (g.board_translations.getD i (0, 0)) (g.duck_pos.1, g.height) : ℚ) : ℝ) := by
    exact_mod_cast hq
  have h0 : (0 : ℝ) ≤
      ((dist2 (advance_enemy g.duck_pos.1 g.height g.speed
          (g.board_translations.getD i (0, 0))) (g.duck_pos.1, g.height) : ℚ) : ℝ) := by
    have : (0 : ℚ) ≤ dist2 (advance_enemy g.duck_pos.1 g.height g.speed
        (g.board_translations.getD i (0, 0))) (g.duck_pos.1, g.height) := by
      unfold dist2
      positivity
    exact_mod_cast this
  exact Real.sqrt_lt_sqrt h0 hcast

/-- Witness for C2's amended theorem: the initial state's single enemy at
`(0,3)` strictly approaches the resting duck at `(0,0)` in one frame. -/
theorem enemy_homing_contracts_witness :
    Real.sqrt (dist2 ((update (initGame fun _ => (0, 2)) 1).board_translations.getD 0 (0, 0))
        ((initGame fun _ => (0, 2)).duck_pos.1, (initGame fun _ => (0, 2)).height)) <
      Real.sqrt (dist2 ((initGame fun _ => (0, 2)).board_translations.getD 0 (0, 0))
        ((initGame fun _ => (0, 2)).duck_pos.1, (initGame fun _ => (0, 2)).height)) :=
  enemy_homing_contracts (initGame fun _ => (0, 2)) 1 0 rfl (by norm_num [initGame,
    base_state, add_target]) (by norm_num [initGame, base_state, add_target])
    (by norm_num [initGame, base_state, add_target, dist2])

/-- A state whose `speed` parameter is positive but below the `1/800`
threshold: one enemy at `(1, 0)`, the resting duck's chase point at
`(0, 0)`. -/
def slowChase : GameState :=
  { base_state (fun _ => (0, 2)) with speed := 1/1600, board_translations := [(1, 0)] }

/-- Counterexample to C2 as stated: with the positive speed `1/1600` the
enemy at distance 1 from the stationary duck is at distance 3 after one
`update` call — the Euclidean distance does not strictly decrease for every
positive speed. -/
theorem enemy_distance_not_monotone :
    0 < slowChase.speed ∧
    dist2 (slowChase.board_translations.getD 0 (0, 0))
      (slowChase.duck_pos.1, slowChase.height) ≠ 0 ∧
    ¬ (Real.sqrt (dist2 ((update slowChase 1).board_translations.getD 0 (0, 0))
          (slowChase.duck_pos.1, slowChase.height)) <
        Real.sqrt (dist2 (slowChase.board_translations.getD 0 (0, 0))
          (slowChase.duck_pos.1, slowChase.height))) := by
  refine ⟨by norm_num [slowChase, base_state], by norm_num [slowChase, base_state, dist2], ?_⟩
  intro hlt
  have e1 : (update slowChase 1).board_translations.getD 0 (0, 0) = (-3, 0) := by
    norm_num [update, enemies_step, check_enemies, physics_step, charge_step,
      advance_enemy, slowChase, base_state]
  have e2 : slowChase.board_translations.getD 0 (0, 0) = ((1 : ℚ), (0 : ℚ)) := rfl
  have e3 : slowChase.duck_pos.1 = (0 : ℚ) := rfl
  have e4 : slowChase.height = (0 : ℚ) := rfl
  rw [e1, e2, e3, e4] at hlt
  have d1 : dist2 ((-3 : ℚ), (0 : ℚ)) ((0 : ℚ), (0 : ℚ)) = 9 := by norm_num [dist2]
  have d2 : dist2 ((1 : ℚ), (0 : ℚ)) ((0 : ℚ), (0 : ℚ)) = 1 := by norm_num [dist2]
  rw [d1, d2] at hlt
  have hmono : Real.sqrt ((1 : ℚ) : ℝ) ≤ Real.sqrt ((9 : ℚ) : ℝ) :=
    Real.sqrt_le_sqrt (by norm_num)
  exact absurd hlt (not_lt.mpr hmono)

/-! ### Counterexamples to the literal forms of C3, C5 and C8 -/

/-- A resting state with the charge key held. -/
def duckCharge : GameState := { duck0 with controls := ⟨false, false, true, false, false⟩ }

/-- Counterexample to C3 as stated: an `update` call while Resting with the
charge key held does change one of the fields the landing snap writes — the
power moves from 0 to 0.1 (the next charge cycle begins). -/
theorem landing_once_cex :
    duckCharge.controls.jump = false ∧ (update duckCharge 1).power ≠ duckCharge.power := by
  refine ⟨rfl, ?_⟩
  show (enemies_step (physics_step (charge_step duckCharge) 1)).power ≠ duckCharge.power
  rw [enemies_step_power,
    physics_step_of_not_jump _ _ (by rw [charge_step_controls]; rfl)]
  norm_num [charge_step, power_step, duckCharge, duck0, base_state, max_power]

/-- An airborne state about to trip the apex clamp: launched straight up at
`vy = 10` from the ground. -/
def duckApex : GameState :=
  { duck0 with
      controls := ⟨false, false, false, false, true⟩,
      height := 0, velocity := (0, 10) }

/-- Counterexample to C5 as stated: the integration formulas do not hold on
every airborne step.  On an apex frame the new vertical velocity is the
clamped `-2`, not `vy + dt*(-4.9)`; on a landing frame the new height is the
snapped `0`, not `y + dt*(vy + dt*(-4.9))`. -/
theorem airborne_integration_cex :
    (duckApex.controls.jump = true ∧
      (update duckApex 1).velocity.2 ≠ duckApex.velocity.2 + 1 * (-49/10)) ∧
    (duckLand.controls.jump = true ∧
      (update duckLand (1/10)).height ≠
        duckLand.height + (1/10) * (duckLand.velocity.2 + (1/10) * (-49/10))) := by
  constructor
  · refine ⟨rfl, ?_⟩
    have hj' : (charge_step duckApex).controls.jump = true := by
      rw [charge_step_controls]; rfl
    have hint : integ_height duckApex 1 = 51/10 := by
      norm_num [integ_height, duckApex, duck0, base_state]
    have hnl : ¬ integ_height (charge_step duckApex) 1 < 1/100 := by
      rw [integ_height_charge, hint]; norm_num
    obtain ⟨-, -, hV, -, -⟩ := physics_no_land (charge_step duckApex) 1 hj' hnl
    show (enemies_step (physics_step (charge_step duckApex) 1)).velocity.2 ≠ _
    rw [enemies_step_velocity, hV]
    show clamp_vy (charge_step duckApex) 1 ≠ _
    rw [clamp_vy_charge]
    unfold clamp_vy
    rw [if_pos (by rw [hint]; norm_num)]
    norm_num [duckApex, duck0, base_state]
  · refine ⟨rfl, ?_⟩
    have hj' : (charge_step duckLand).controls.jump = true := by
      rw [charge_step_controls]; rfl
    have hl' : integ_height (charge_step duckLand) (1/10) < 1/100 := by
      rw [integ_height_charge]
      norm_num [integ_height, duckLand, duck0, base_state]
    obtain ⟨hH, -, -, -, -⟩ := physics_land (charge_step duckLand) (1/10) hj' hl'
    show (enemies_step (physics_step (charge_step duckLand) (1/10))).height ≠ _
    rw [enemies_step_height, hH]
    norm_num [duckLand, duck0, base_state]

/-- An airborne state that flies past the right wall and lands on the same
frame. -/
def duckFly : GameState :=
  { duck0 with
      controls := ⟨false, false, false, false, true⟩,
      height := 0, xpos := 5, velocity := (1, 0) }

/-- Counterexample to C8 as stated: a frame whose integrated x leaves
`[-0.5, 5.5]` but which also lands ends with `vx = 0` (the landing snap
overwrites the bounce), not `vx * (-0.8)`. -/
theorem wall_bounce_cex :
    duckFly.controls.jump = true ∧
    (integ_xpos duckFly 1 < -1/2 ∨ integ_xpos duckFly 1 > 11/2) ∧
    (update duckFly 1).velocity.1 ≠ duckFly.velocity.1 * (-4/5) := by
  refine ⟨rfl, Or.inr (by norm_num [integ_xpos, duckFly, duck0, base_state]), ?_⟩
  have hj' : (charge_step duckFly).controls.jump = true := by
    rw [charge_step_controls]; rfl
  have hl' : integ_height (charge_step duckFly) 1 < 1/100 := by
    rw [integ_height_charge]
    norm_num [integ_height, duckFly, duck0, base_state]
  obtain ⟨-, -, hV, -, -⟩ := physics_land (charge_step duckFly) 1 hj' hl'
  show (enemies_step (physics_step (charge_step duckFly) 1)).velocity.1 ≠ _
  rw [enemies_step_velocity, hV]
  norm_num [duckFly, duck0, base_state]

end JumpDuck
